import Mathlib

/-
  Verification of the external RF-module driver
  (radio/src/targets/horus/extmodule_driver.cpp).

  The driver is embedded shallowly: every register access the C code
  performs is recorded as an `Act` in program order, and the meaning of a
  run is the left fold of those actions over a hardware-state record.
  Machine integers are `Nat` with explicit `% 2^16` where the hardware
  register width or C unsigned arithmetic matters.
-/

namespace ExtmoduleDriver

/-! ## STM32 register bit constants (stm32f4xx.h values) -/

def TIM_CR1_CEN : Nat := 0x1
def TIM_DIER_CC2IE : Nat := 0x4
def TIM_DIER_UDE : Nat := 0x100
def TIM_SR_CC2IF : Nat := 0x4
def TIM_CCER_CC1E : Nat := 0x1
def TIM_CCER_CC1P : Nat := 0x2
def TIM_CCER_CC1NE : Nat := 0x4
def TIM_CCER_CC1NP : Nat := 0x8
def TIM_CCER_CC3E : Nat := 0x100
def TIM_CCER_CC3P : Nat := 0x200
def TIM_CCER_CC3NE : Nat := 0x400
def TIM_CCER_CC3NP : Nat := 0x800
def TIM_CCMR1_OC1M_0 : Nat := 0x10
def TIM_CCMR1_OC1M_1 : Nat := 0x20
def TIM_CCMR1_OC1M_2 : Nat := 0x40
def TIM_CCMR1_OC2PE : Nat := 0x800
def TIM_CCMR2_OC3M_0 : Nat := 0x10
def TIM_CCMR2_OC3M_1 : Nat := 0x20
def TIM_CCMR2_OC3M_2 : Nat := 0x40
def TIM_BDTR_MOE : Nat := 0x8000
def DMA_SxCR_EN : Nat := 0x1
def DMA_SxCR_TCIE : Nat := 0x10
def DMA_SxCR_DIR_0 : Nat := 0x40
def DMA_SxCR_MINC : Nat := 0x400
def DMA_SxCR_PSIZE_0 : Nat := 0x800
def DMA_SxCR_MSIZE_0 : Nat := 0x2000
def DMA_SxCR_PL_0 : Nat := 0x10000
def DMA_SxCR_PL_1 : Nat := 0x20000
def USART_FLAG_PE : Nat := 0x1
def USART_FLAG_FE : Nat := 0x2
def USART_FLAG_NE : Nat := 0x4
def USART_FLAG_ORE : Nat := 0x8
def USART_FLAG_RXNE : Nat := 0x20

/-- USART_FLAG_ERRORS, as defined in the driver:
    `ORE | NE | FE | PE`. -/
def USART_FLAG_ERRORS : Nat :=
  USART_FLAG_ORE ||| USART_FLAG_NE ||| USART_FLAG_FE ||| USART_FLAG_PE

/-- 16-bit truncation: the effective value stored in a 16-bit timer
    register / held by a `uint16_t`. -/
def u16 (n : Nat) : Nat := n % 65536

/-- Bitwise complement within a 32-bit register, as produced by `~mask`
    on a 32-bit unsigned value. -/
def compl32 (m : Nat) : Nat := 0xFFFFFFFF ^^^ m

/-! ## Board / build configuration

The source file is compiled under preprocessor conditionals.  The three
register layouts present in the text are:
* `x10`  : `defined(PCBX10) || PCBREV >= 13` (timer channel 3),
* `x12`  : the plain `#else` branch (timer channel 1),
* `nv14` : the `#else` branch with `PCBNV14` defined (channel 1 with the
           polarity bit sense reversed, the board inverts the line). -/

inductive Board
  | x10
  | x12
  | nv14
  deriving DecidableEq, Repr

/-- Target-level build constants that the driver reads but that are
    defined outside this file (board headers). -/
structure Config where
  board : Board
  /-- `EXTMODULE_TIMER_DMA_CHANNEL` : DMA channel-select bits. -/
  timerDmaChannel : Nat
  /-- `EXTMODULE_TIMER_DMA_SIZE` : PSIZE/MSIZE bits for 16-bit transfers. -/
  timerDmaSize : Nat
  /-- `EXTMODULE_TIMER_FREQ` : input clock of the timer. -/
  timerFreq : Nat
  /-- Address of `EXTMODULE_TIMER->ARR`, the DMA peripheral target. -/
  arrAddr : Nat
  /-- AFHDS3 compiled with `EXTMODULE_USART && EXTMODULE_TX_INVERT_GPIO`
      (UART path) rather than the timer-DMA path. -/
  afhds3ViaUsart : Bool
  deriving DecidableEq, Repr

/-! ## Protocols (`PROTOCOL_CHANNELS_*` values reaching this driver) -/

inductive Protocol
  | PPM
  | PXX1_PULSES
  | PXX1_SERIAL
  | PXX2_HIGHSPEED
  | PXX2_LOWSPEED
  | AFHDS3
  | SBUS
  | DSM2_LP45
  | DSM2_DSM2
  | DSM2_DSMX
  | MULTIMODULE
  | CROSSFIRE
  | GHOST
  /-- any protocol falling into the `default:` case of the switch -/
  | OTHER
  deriving DecidableEq, Repr

/-! ## Hardware registers and state -/

inductive Reg
  | CR1
  | PSC
  | ARR
  | CCR1
  | CCR2
  | CCR3
  | CCER
  | CCMR1
  | CCMR2
  | BDTR
  | EGR
  | DIER
  | SR
  | dmaCR
  | dmaPAR
  | dmaM0AR
  | dmaNDTR
  deriving DecidableEq, Repr

inductive Irq
  | timerDma
  | timerCc
  deriving DecidableEq, Repr

inductive PinMode
  | alternateFn
  | output
  deriving DecidableEq, Repr

/-- GPIO pin configuration as programmed through `GPIO_Init`. -/
structure PinCfg where
  mode : PinMode
  /-- `GPIO_OType_PP` (push-pull driven output). -/
  pushPull : Bool
  /-- `GPIO_PuPd` selection, `0` = `GPIO_PuPd_NOPULL`. -/
  pupd : Nat
  /-- `GPIO_Speed` in MHz. -/
  speed : Nat
  deriving DecidableEq, Repr

/-- The pin configuration `extmoduleStop` programs:
    plain output, push-pull, no pull, 2 MHz. -/
def pinOutPP : PinCfg := ⟨PinMode.output, true, 0, 2⟩

/-- One observable action of the driver, in program order. -/
inductive Act
  /-- `EXTERNAL_MODULE_ON()` -/
  | powerOn
  /-- `EXTERNAL_MODULE_OFF()` -/
  | powerOff
  | nvicEnable (i : Irq)
  | nvicDisable (i : Irq)
  | nvicSetPriority (i : Irq) (p : Nat)
  /-- `GPIO_PinAFConfig` (alternate-function mux selection) -/
  | pinAFConfig
  /-- `GPIO_Init` with the given configuration -/
  | pinInit (c : PinCfg)
  /-- plain register assignment `reg = v` -/
  | wr (r : Reg) (v : Nat)
  /-- read-modify-write `reg |= m` -/
  | orBits (r : Reg) (m : Nat)
  /-- read-modify-write `reg &= ~m` -/
  | andNotBits (r : Reg) (m : Nat)
  /-- `DMA_ClearITPendingBit(stream, TC)` -/
  | clearDmaTC
  /-- `extmoduleSendBuffer(data, size)` : arms the UART TX DMA stream -/
  | usartSendBuffer (addr size : Nat)
  /-- `sportSendBuffer(data, size)` : external S.PORT transmit path -/
  | sportSend (addr size : Nat)
  deriving DecidableEq, Repr

/-- Hardware state touched by the driver. -/
structure HwState where
  power : Bool
  dmaIrqEnabled : Bool
  ccIrqEnabled : Bool
  dmaIrqPrio : Nat
  ccIrqPrio : Nat
  pin : PinCfg
  regs : Reg → Nat
  /-- DMA stream transfer-complete interrupt flag. -/
  dmaTCFlag : Bool
  usartTxDma : Option (Nat × Nat)
  sportTx : Option (Nat × Nat)

def updReg (g : Reg → Nat) (r : Reg) (v : Nat) : Reg → Nat :=
  fun x => if x = r then v else g x

def applyAct (s : HwState) (a : Act) : HwState :=
  match a with
  | Act.powerOn => { s with power := true }
  | Act.powerOff => { s with power := false }
  | Act.nvicEnable Irq.timerDma => { s with dmaIrqEnabled := true }
  | Act.nvicEnable Irq.timerCc => { s with ccIrqEnabled := true }
  | Act.nvicDisable Irq.timerDma => { s with dmaIrqEnabled := false }
  | Act.nvicDisable Irq.timerCc => { s with ccIrqEnabled := false }
  | Act.nvicSetPriority Irq.timerDma p => { s with dmaIrqPrio := p }
  | Act.nvicSetPriority Irq.timerCc p => { s with ccIrqPrio := p }
  | Act.pinAFConfig => s
  | Act.pinInit c => { s with pin := c }
  | Act.wr r v => { s with regs := updReg s.regs r v }
  | Act.orBits r m => { s with regs := updReg s.regs r (s.regs r ||| m) }
  | Act.andNotBits r m => { s with regs := updReg s.regs r (s.regs r &&& compl32 m) }
  | Act.clearDmaTC => { s with dmaTCFlag := false }
  | Act.usartSendBuffer a n => { s with usartTxDma := some (a, n) }
  | Act.sportSend a n => { s with sportTx := some (a, n) }

/-- Running a trace = folding its actions over the state. -/
def run (s : HwState) (tr : List Act) : HwState := tr.foldl applyAct s

/-! ## `extmoduleStop` -/

/-- `extmoduleStop()` : power off, mask both module interrupts, disable
    the timer DMA stream, clear the DMA-update and CC2 interrupt enables,
    stop the timer, and reconfigure TX as a plain push-pull output. -/
def extmoduleStop : List Act :=
  [ Act.powerOff,
    Act.nvicDisable Irq.timerDma,
    Act.nvicDisable Irq.timerCc,
    Act.andNotBits Reg.dmaCR DMA_SxCR_EN,
    Act.andNotBits Reg.DIER (TIM_DIER_CC2IE ||| TIM_DIER_UDE),
    Act.andNotBits Reg.CR1 TIM_CR1_CEN,
    Act.pinInit pinOutPP ]

/-! ## Bit-mask helper lemmas -/

theorem land_land_self (x c : Nat) : x &&& c &&& c = x &&& c := by
  apply Nat.eq_of_testBit_eq
  intro i
  simp [Nat.testBit_land, Bool.and_assoc]

theorem land_land_eq_zero (x c m : Nat) (h : c &&& m = 0) :
    x &&& c &&& m = 0 := by
  apply Nat.eq_of_testBit_eq
  intro i
  have hc : (c &&& m).testBit i = false := by simp [h]
  simp only [Nat.testBit_land, Nat.zero_testBit]
  simp only [Nat.testBit_land] at hc
  rcases Bool.and_eq_false_iff.mp hc with h1 | h1 <;> simp [h1]

/-! ## Start routines -/

/-- The pin configuration the start routines program:
    alternate function, push-pull, no pull, 2 MHz. -/
def pinAfPP : PinCfg := ⟨PinMode.alternateFn, true, 0, 2⟩

/-- Common prologue of the timer-based start routines: power on, route
    the TX pin to the timer, stop the timer, program the prescaler for
    a 0.5 µs (2 MHz) tick. -/
def timerStartProlog (cfg : Config) : List Act :=
  [ Act.powerOn,
    Act.pinAFConfig,
    Act.pinInit pinAfPP,
    Act.andNotBits Reg.CR1 TIM_CR1_CEN,
    Act.wr Reg.PSC (cfg.timerFreq / 2000000 - 1) ]

/-- `extmodulePpmStart()`.  `delay` is the value of
    `GET_MODULE_PPM_DELAY(EXTERNAL_MODULE)` and `polarity` the value of
    `GET_MODULE_PPM_POLARITY(EXTERNAL_MODULE)` (both read from model
    settings outside this file). -/
def extmodulePpmStart (cfg : Config) (delay : Nat) (polarity : Bool) : List Act :=
  timerStartProlog cfg ++
  (match cfg.board with
   | Board.x10 =>
     [ Act.wr Reg.CCR3 (u16 (delay * 2)),
       Act.wr Reg.CCER (TIM_CCER_CC3E ||| (if polarity then TIM_CCER_CC3P else 0)),
       Act.wr Reg.CCMR2 (TIM_CCMR2_OC3M_1 ||| TIM_CCMR2_OC3M_0),
       Act.wr Reg.BDTR TIM_BDTR_MOE,
       Act.wr Reg.EGR 1,
       Act.wr Reg.CCMR2 (TIM_CCMR2_OC3M_1 ||| TIM_CCMR2_OC3M_2) ]
   | Board.x12 =>
     [ Act.wr Reg.CCR1 (u16 (delay * 2)),
       Act.wr Reg.CCER (TIM_CCER_CC1E ||| (if polarity then TIM_CCER_CC1P else 0)),
       Act.wr Reg.CCMR1 (TIM_CCMR1_OC1M_2 ||| TIM_CCMR1_OC1M_0),
       Act.wr Reg.EGR 1,
       Act.wr Reg.CCMR1 (TIM_CCMR1_OC1M_1 ||| TIM_CCMR1_OC1M_2 ||| TIM_CCMR1_OC2PE) ]
   | Board.nv14 =>
     [ Act.wr Reg.CCR1 (u16 (delay * 2)),
       Act.wr Reg.CCER (TIM_CCER_CC1E ||| (if polarity then 0 else TIM_CCER_CC1P)),
       Act.wr Reg.CCMR1 (TIM_CCMR1_OC1M_2 ||| TIM_CCMR1_OC1M_0),
       Act.wr Reg.EGR 1,
       Act.wr Reg.CCMR1 (TIM_CCMR1_OC1M_1 ||| TIM_CCMR1_OC1M_2 ||| TIM_CCMR1_OC2PE) ]) ++
  [ Act.wr Reg.ARR 45000,
    Act.wr Reg.CCR2 40000,
    Act.andNotBits Reg.SR TIM_SR_CC2IF,
    Act.orBits Reg.DIER (TIM_DIER_UDE ||| TIM_DIER_CC2IE),
    Act.wr Reg.CR1 TIM_CR1_CEN,
    Act.nvicEnable Irq.timerDma,
    Act.nvicSetPriority Irq.timerDma 7,
    Act.nvicEnable Irq.timerCc,
    Act.nvicSetPriority Irq.timerCc 7 ]

/-- `extmodulePxx1PulsesStart()`. -/
def extmodulePxx1PulsesStart (cfg : Config) : List Act :=
  timerStartProlog cfg ++
  (match cfg.board with
   | Board.x10 =>
     [ Act.wr Reg.CCR3 18,
       Act.wr Reg.CCER (TIM_CCER_CC3E ||| TIM_CCER_CC3NE ||| TIM_CCER_CC3P ||| TIM_CCER_CC3NP),
       Act.wr Reg.CCMR2 (TIM_CCMR2_OC3M_2 ||| TIM_CCMR2_OC3M_0),
       Act.wr Reg.BDTR TIM_BDTR_MOE,
       Act.wr Reg.EGR 1,
       Act.wr Reg.CCMR2 (TIM_CCMR2_OC3M_1 ||| TIM_CCMR2_OC3M_2) ]
   | Board.x12 =>
     [ Act.wr Reg.CCR1 18,
       Act.wr Reg.CCER (TIM_CCER_CC1E ||| TIM_CCER_CC1P ||| TIM_CCER_CC1NE ||| TIM_CCER_CC1NP),
       Act.wr Reg.CCMR1 (TIM_CCMR1_OC1M_2 ||| TIM_CCMR1_OC1M_0),
       Act.wr Reg.BDTR TIM_BDTR_MOE,
       Act.wr Reg.EGR 1,
       Act.wr Reg.CCMR1 (TIM_CCMR1_OC1M_1 ||| TIM_CCMR1_OC1M_2) ]
   | Board.nv14 =>
     [ Act.wr Reg.CCR1 18,
       Act.wr Reg.CCER (TIM_CCER_CC1E ||| TIM_CCER_CC1NE ||| TIM_CCER_CC1NP),
       Act.wr Reg.CCMR1 (TIM_CCMR1_OC1M_2 ||| TIM_CCMR1_OC1M_0),
       Act.wr Reg.BDTR TIM_BDTR_MOE,
       Act.wr Reg.EGR 1,
       Act.wr Reg.CCMR1 (TIM_CCMR1_OC1M_1 ||| TIM_CCMR1_OC1M_2) ]) ++
  [ Act.wr Reg.ARR 45000,
    Act.andNotBits Reg.SR TIM_SR_CC2IF,
    Act.orBits Reg.DIER TIM_DIER_UDE,
    Act.orBits Reg.CR1 TIM_CR1_CEN,
    Act.nvicEnable Irq.timerDma,
    Act.nvicSetPriority Irq.timerDma 7,
    Act.nvicEnable Irq.timerCc,
    Act.nvicSetPriority Irq.timerCc 7 ]

/-! ## `extmoduleSendNextFrame` -/

/-- The data the frame dispatcher reads from outside the driver:
    `moduleState[EXTERNAL_MODULE].protocol`, the per-protocol
    `extmodulePulsesData` buffers (address/size pairs, contents opaque to
    the driver), and the PPM/SBUS model settings. -/
structure Inputs where
  protocol : Protocol
  /-- `GET_MODULE_PPM_DELAY(EXTERNAL_MODULE)` -/
  ppmDelay : Nat
  /-- `GET_MODULE_PPM_POLARITY(EXTERNAL_MODULE)` -/
  ppmPolarity : Bool
  /-- `*(extmodulePulsesData.ppm.ptr - 1)`, the last pulse value
      (a `uint16_t`). -/
  ppmLast : Nat
  /-- address of `extmodulePulsesData.ppm.pulses` -/
  ppmPulsesAddr : Nat
  /-- `extmodulePulsesData.ppm.ptr - extmodulePulsesData.ppm.pulses` -/
  ppmCount : Nat
  pxxAddr : Nat
  pxxSize : Nat
  pxx1SerialAddr : Nat
  pxx1SerialSize : Nat
  pxx2Addr : Nat
  pxx2Size : Nat
  afhds3Addr : Nat
  afhds3Size : Nat
  dsm2Addr : Nat
  dsm2Count : Nat
  /-- `GET_SBUS_POLARITY(EXTERNAL_MODULE)` -/
  sbusPolarity : Bool
  crossfireAddr : Nat
  crossfireLen : Nat
  ghostAddr : Nat
  ghostLen : Nat
  deriving DecidableEq, Repr

/-- The common timer-DMA stream configuration bits OR-ed into `CR`:
    channel select, memory-to-peripheral, memory increment, 16-bit
    transfer size, very-high priority. -/
def timerDmaCfgBits (cfg : Config) : Nat :=
  cfg.timerDmaChannel ||| DMA_SxCR_DIR_0 ||| DMA_SxCR_MINC |||
    cfg.timerDmaSize ||| DMA_SxCR_PL_0 ||| DMA_SxCR_PL_1

/-- `CCR2` value programmed by the PPM re-arm:
    `*(ppm.ptr - 1) - 4000` in C unsigned-16-bit arithmetic
    ("2 ms in advance"). -/
def ppmCcr2 (last : Nat) : Nat := u16 (u16 last + 65536 - 4000)

/-- CCER value the PPM paths write (board-dependent channel and
    polarity-bit sense; on NV14 the board inverts the line, so the
    polarity test is reversed). -/
def ppmCcerVal (b : Board) (polarity : Bool) : Nat :=
  match b with
  | Board.x10 => TIM_CCER_CC3E ||| (if polarity then TIM_CCER_CC3P else 0)
  | Board.x12 => TIM_CCER_CC1E ||| (if polarity then TIM_CCER_CC1P else 0)
  | Board.nv14 => TIM_CCER_CC1E ||| (if polarity then 0 else TIM_CCER_CC1P)

/-- CCER value the SBUS branch writes. -/
def sbusCcerVal (b : Board) (polarity : Bool) : Nat :=
  match b with
  | Board.x10 => TIM_CCER_CC3E ||| (if polarity then TIM_CCER_CC3P else 0)
  | Board.x12 => TIM_CCER_CC1E ||| (if polarity then TIM_CCER_CC1P else 0)
  | Board.nv14 => TIM_CCER_CC1E ||| (if polarity then 0 else TIM_CCER_CC1P)

/-- The timer-DMA stream busy test `EXTMODULE_TIMER_DMA_STREAM->CR & DMA_SxCR_EN`. -/
def dmaBusy (s : HwState) : Prop := s.regs Reg.dmaCR &&& DMA_SxCR_EN ≠ 0

instance (s : HwState) : Decidable (dmaBusy s) := by
  unfold dmaBusy
  infer_instance

/-- `extmoduleSendNextFrame()`: the per-protocol transfer-request
    dispatch, one `switch` over the active protocol.  Reads the DMA
    stream enable bit of the current state for the guarded branches. -/
def extmoduleSendNextFrame (cfg : Config) (inp : Inputs) (s : HwState) : List Act :=
  match inp.protocol with
  | Protocol.PPM =>
    (match cfg.board with
     | Board.x10 =>
       [ Act.wr Reg.CCR3 (u16 (inp.ppmDelay * 2)),
         Act.wr Reg.CCER (ppmCcerVal Board.x10 inp.ppmPolarity) ]
     | Board.x12 =>
       [ Act.wr Reg.CCR1 (u16 (inp.ppmDelay * 2)),
         Act.wr Reg.CCER (ppmCcerVal Board.x12 inp.ppmPolarity) ]
     | Board.nv14 =>
       [ Act.wr Reg.CCR1 (u16 (inp.ppmDelay * 2)),
         Act.wr Reg.CCER (ppmCcerVal Board.nv14 inp.ppmPolarity) ]) ++
    [ Act.wr Reg.CCR2 (ppmCcr2 inp.ppmLast),
      Act.andNotBits Reg.dmaCR DMA_SxCR_EN,
      Act.orBits Reg.dmaCR (timerDmaCfgBits cfg),
      Act.wr Reg.dmaPAR cfg.arrAddr,
      Act.wr Reg.dmaM0AR inp.ppmPulsesAddr,
      Act.wr Reg.dmaNDTR inp.ppmCount,
      Act.orBits Reg.dmaCR (DMA_SxCR_EN ||| DMA_SxCR_TCIE) ]
  | Protocol.PXX1_PULSES =>
    if dmaBusy s then []
    else
      [ Act.andNotBits Reg.CR1 TIM_CR1_CEN,
        Act.orBits Reg.dmaCR (timerDmaCfgBits cfg),
        Act.wr Reg.dmaPAR cfg.arrAddr,
        Act.wr Reg.dmaM0AR inp.pxxAddr,
        Act.wr Reg.dmaNDTR inp.pxxSize,
        Act.orBits Reg.dmaCR (DMA_SxCR_EN ||| DMA_SxCR_TCIE),
        Act.wr Reg.EGR 1,
        Act.orBits Reg.CR1 TIM_CR1_CEN ]
  | Protocol.PXX1_SERIAL =>
    [ Act.usartSendBuffer inp.pxx1SerialAddr inp.pxx1SerialSize ]
  | Protocol.PXX2_HIGHSPEED =>
    [ Act.usartSendBuffer inp.pxx2Addr inp.pxx2Size ]
  | Protocol.PXX2_LOWSPEED =>
    [ Act.usartSendBuffer inp.pxx2Addr inp.pxx2Size ]
  | Protocol.AFHDS3 =>
    if cfg.afhds3ViaUsart then
      [ Act.usartSendBuffer inp.afhds3Addr inp.afhds3Size ]
    else if dmaBusy s then []
    else
      [ Act.andNotBits Reg.dmaCR DMA_SxCR_EN,
        Act.orBits Reg.dmaCR (cfg.timerDmaChannel ||| DMA_SxCR_DIR_0 ||| DMA_SxCR_MINC |||
          DMA_SxCR_PSIZE_0 ||| DMA_SxCR_MSIZE_0 ||| DMA_SxCR_PL_0 ||| DMA_SxCR_PL_1),
        Act.wr Reg.dmaPAR cfg.arrAddr,
        Act.wr Reg.dmaM0AR inp.afhds3Addr,
        Act.wr Reg.dmaNDTR inp.afhds3Size,
        Act.orBits Reg.dmaCR (DMA_SxCR_EN ||| DMA_SxCR_TCIE),
        Act.wr Reg.EGR 1,
        Act.orBits Reg.CR1 TIM_CR1_CEN ]
  | Protocol.SBUS => dsm2FamilyFrame cfg inp s true
  | Protocol.DSM2_LP45 => dsm2FamilyFrame cfg inp s false
  | Protocol.DSM2_DSM2 => dsm2FamilyFrame cfg inp s false
  | Protocol.DSM2_DSMX => dsm2FamilyFrame cfg inp s false
  | Protocol.MULTIMODULE => dsm2FamilyFrame cfg inp s false
  | Protocol.CROSSFIRE =>
    [ Act.sportSend inp.crossfireAddr inp.crossfireLen ]
  | Protocol.GHOST =>
    [ Act.sportSend inp.ghostAddr inp.ghostLen ]
  | Protocol.OTHER =>
    [ Act.orBits Reg.DIER TIM_DIER_CC2IE ]
where
  /-- shared body of the `SBUS / DSM2 / MULTIMODULE` case; `isSbus` is
      the `PROTOCOL_CHANNELS_SBUS == protocol` test that gates the
      polarity write. -/
  dsm2FamilyFrame (cfg : Config) (inp : Inputs) (s : HwState) (isSbus : Bool) : List Act :=
    if dmaBusy s then []
    else
      (if isSbus then [Act.wr Reg.CCER (sbusCcerVal cfg.board inp.sbusPolarity)] else []) ++
      [ Act.andNotBits Reg.CR1 TIM_CR1_CEN,
        Act.andNotBits Reg.dmaCR DMA_SxCR_EN,
        Act.orBits Reg.dmaCR (timerDmaCfgBits cfg),
        Act.wr Reg.dmaPAR cfg.arrAddr,
        Act.wr Reg.dmaM0AR inp.dsm2Addr,
        Act.wr Reg.dmaNDTR inp.dsm2Count,
        Act.orBits Reg.dmaCR (DMA_SxCR_EN ||| DMA_SxCR_TCIE),
        Act.wr Reg.EGR 1,
        Act.orBits Reg.CR1 TIM_CR1_CEN ]

/-! ## Timer-DMA transfer-complete interrupt handler -/

/-- `EXTMODULE_TIMER_DMA_IRQHandler()`: return immediately unless the
    transfer-complete flag is set; otherwise clear the pending bit and,
    for PPM only, clear the CC2 flag and re-enable the CC2 interrupt. -/
def EXTMODULE_TIMER_DMA_IRQHandler (proto : Protocol) (s : HwState) : List Act :=
  if s.dmaTCFlag = false then []
  else
    Act.clearDmaTC ::
      (match proto with
       | Protocol.PPM =>
         [ Act.andNotBits Reg.SR TIM_SR_CC2IF,
           Act.orBits Reg.DIER TIM_DIER_CC2IE ]
       | _ => [])

/-! ## Concrete fixtures used by witnesses and counterexamples -/

def testCfg : Config :=
  { board := Board.x10,
    timerDmaChannel := 0x2000000,
    timerDmaSize := DMA_SxCR_PSIZE_0 ||| DMA_SxCR_MSIZE_0,
    timerFreq := 84000000,
    arrAddr := 0x40010C2C,
    afhds3ViaUsart := false }

def nv14Cfg : Config := { testCfg with board := Board.nv14 }

def ppmInputs : Inputs :=
  { protocol := Protocol.PPM,
    ppmDelay := 300, ppmPolarity := true, ppmLast := 9000,
    ppmPulsesAddr := 0x20001000, ppmCount := 20,
    pxxAddr := 0x20002000, pxxSize := 18,
    pxx1SerialAddr := 0x20003000, pxx1SerialSize := 40,
    pxx2Addr := 0x20004000, pxx2Size := 30,
    afhds3Addr := 0x20005000, afhds3Size := 25,
    dsm2Addr := 0x20006000, dsm2Count := 60,
    sbusPolarity := false,
    crossfireAddr := 0x20007000, crossfireLen := 26,
    ghostAddr := 0x20008000, ghostLen := 14 }

def pxxInputs : Inputs := { ppmInputs with protocol := Protocol.PXX1_PULSES }

/-- A state in which the timer DMA stream enable bit is set
    (a transfer is in flight); every register reads 1. -/
def busyState : HwState :=
  { power := true, dmaIrqEnabled := true, ccIrqEnabled := true,
    dmaIrqPrio := 7, ccIrqPrio := 7, pin := pinAfPP,
    regs := fun _ => 1, dmaTCFlag := false,
    usartTxDma := none, sportTx := none }

/-- A state with the DMA stream idle; every register reads 0. -/
def idleState : HwState := { busyState with regs := fun _ => 0 }

/-! ## C1: busy flag versus no-op -/

/-- The protocols whose `extmoduleSendNextFrame` branch starts with the
    `if (EXTMODULE_TIMER_DMA_STREAM->CR & DMA_SxCR_EN) return;` guard. -/
def dmaGuarded (cfg : Config) (p : Protocol) : Bool :=
  match p with
  | Protocol.PXX1_PULSES => true
  | Protocol.AFHDS3 => !cfg.afhds3ViaUsart
  | Protocol.SBUS => true
  | Protocol.DSM2_LP45 => true
  | Protocol.DSM2_DSM2 => true
  | Protocol.DSM2_DSMX => true
  | Protocol.MULTIMODULE => true
  | _ => false

/-- C1 (amended): for the protocols whose branch checks the timer-DMA
    busy flag — PXX1 pulses, AFHDS3 over timer DMA, and the
    SBUS/DSM2/Multimodule family — calling `extmoduleSendNextFrame`
    while the stream enable bit is set performs no action and leaves
    the whole hardware state unchanged.  (The PPM branch and the
    UART/S.PORT serial branches carry no such guard.) -/
theorem sendNextFrame_busy_guarded_noop (cfg : Config) (inp : Inputs)
    (s : HwState) (hb : dmaBusy s) (hg : dmaGuarded cfg inp.protocol = true) :
    extmoduleSendNextFrame cfg inp s = [] ∧
    run s (extmoduleSendNextFrame cfg inp s) = s := by
  have he : extmoduleSendNextFrame cfg inp s = [] := by
    cases hp : inp.protocol <;>
      simp [dmaGuarded, hp] at hg <;>
      simp [extmoduleSendNextFrame, extmoduleSendNextFrame.dsm2FamilyFrame,
        hp, hb, hg]
  exact ⟨he, by rw [he]; rfl⟩

/-- C1 witness: with the stream busy, the PXX1-pulses branch emits no
    action. -/
theorem sendNextFrame_busy_guarded_noop_witness :
    extmoduleSendNextFrame testCfg pxxInputs busyState = [] ∧
    run busyState (extmoduleSendNextFrame testCfg pxxInputs busyState) = busyState :=
  sendNextFrame_busy_guarded_noop testCfg pxxInputs busyState
    (by decide) (by decide)

/-- C1 counterexample: the PPM branch has no busy guard.  With the
    timer-DMA enable bit set (`dmaBusy`), `extmoduleSendNextFrame` for
    PPM still reprograms the registers: `CCR2` changes value, so the
    call is not a no-op. -/
theorem sendNextFrame_busy_ppm_not_noop :
    dmaBusy busyState ∧
    (run busyState (extmoduleSendNextFrame testCfg ppmInputs busyState)).regs Reg.CCR2
      ≠ busyState.regs Reg.CCR2 := by
  constructor
  · decide
  · decide

/-! ## C2: paired-pulse (PXX1) start/re-arm sequencing -/

/-- A write of the force-active (force output high) output-compare mode,
    `OCxM = 101`, to either output-compare mode register. -/
def isForceOcWrite : Act → Bool
  | Act.wr Reg.CCMR1 v => v == (TIM_CCMR1_OC1M_2 ||| TIM_CCMR1_OC1M_0)
  | Act.wr Reg.CCMR2 v => v == (TIM_CCMR2_OC3M_2 ||| TIM_CCMR2_OC3M_0)
  | _ => false

/-- A write of the real output-compare (PWM mode 1) mode, `OCxM = 110`. -/
def isPwmOcWrite : Act → Bool
  | Act.wr Reg.CCMR1 v => v == (TIM_CCMR1_OC1M_1 ||| TIM_CCMR1_OC1M_2)
  | Act.wr Reg.CCMR2 v => v == (TIM_CCMR2_OC3M_1 ||| TIM_CCMR2_OC3M_2)
  | _ => false

/-- A write to `EGR` (immediate-update / reload event). -/
def isEgrWrite : Act → Bool
  | Act.wr Reg.EGR _ => true
  | _ => false

/-- Any access to an output-compare mode register. -/
def touchesOcMode : Act → Bool
  | Act.wr Reg.CCMR1 _ => true
  | Act.wr Reg.CCMR2 _ => true
  | Act.orBits Reg.CCMR1 _ => true
  | Act.orBits Reg.CCMR2 _ => true
  | Act.andNotBits Reg.CCMR1 _ => true
  | Act.andNotBits Reg.CCMR2 _ => true
  | _ => false

/-- Stage 3 of the sequencing check: some later action is the real
    output-compare mode write. -/
def seqPwmAfter : List Act → Bool
  | [] => false
  | a :: rest => isPwmOcWrite a || seqPwmAfter rest

/-- Stage 2: an `EGR` reload occurs, followed later by the real
    output-compare mode write. -/
def seqEgrThenPwm : List Act → Bool
  | [] => false
  | a :: rest => if isEgrWrite a then seqPwmAfter rest else seqEgrThenPwm rest

/-- The full sequencing invariant: a force-output-high mode write occurs,
    later an `EGR` reload event, and only after that the real
    output-compare (PWM) mode write. -/
def seqForceEgrPwm : List Act → Bool
  | [] => false
  | a :: rest => if isForceOcWrite a then seqEgrThenPwm rest else seqForceEgrPwm rest

/-- C2 (amended): the force-high → reload → PWM-mode reprogramming
    sequence is performed by the initial `extmodulePxx1PulsesStart` only.
    The per-frame re-arm (`extmoduleSendNextFrame`, PXX1-pulses branch)
    issues the `EGR` reload event but never rewrites an output-compare
    mode register: the mode programmed at start stays in force. -/
theorem pxx1_force_egr_pwm_sequencing (cfg : Config) (inp : Inputs)
    (s : HwState) (hp : inp.protocol = Protocol.PXX1_PULSES) :
    seqForceEgrPwm (extmodulePxx1PulsesStart cfg) = true ∧
    (extmoduleSendNextFrame cfg inp s).all (fun a => !touchesOcMode a) = true ∧
    (¬ dmaBusy s → (extmoduleSendNextFrame cfg inp s).any isEgrWrite = true) := by
  refine ⟨?_, ?_, ?_⟩
  · cases hb : cfg.board <;>
      simp [extmodulePxx1PulsesStart, timerStartProlog, hb,
        seqForceEgrPwm, seqEgrThenPwm, seqPwmAfter,
        isForceOcWrite, isEgrWrite, isPwmOcWrite]
  · by_cases hb : dmaBusy s <;>
      simp [extmoduleSendNextFrame, hp, hb, touchesOcMode, List.all]
  · intro hb
    simp [extmoduleSendNextFrame, hp, hb, isEgrWrite, List.any]

/-- C2 witness: concrete instantiation on the X10 configuration with an
    idle stream. -/
theorem pxx1_force_egr_pwm_sequencing_witness :
    seqForceEgrPwm (extmodulePxx1PulsesStart testCfg) = true ∧
    (extmoduleSendNextFrame testCfg pxxInputs idleState).all
      (fun a => !touchesOcMode a) = true ∧
    (¬ dmaBusy idleState →
      (extmoduleSendNextFrame testCfg pxxInputs idleState).any isEgrWrite = true) :=
  pxx1_force_egr_pwm_sequencing testCfg pxxInputs idleState (by decide)

/-- C2 counterexample: the per-frame re-arm is a genuine transfer
    request (its action list is nonempty) yet it contains no
    force-high → reload → PWM-mode sequence at all, so the claimed
    from-scratch reprogramming does not happen on re-arm. -/
theorem pxx1_rearm_without_force_sequence :
    extmoduleSendNextFrame testCfg pxxInputs idleState ≠ [] ∧
    seqForceEgrPwm (extmoduleSendNextFrame testCfg pxxInputs idleState) = false := by
  constructor
  · decide
  · decide

/-! ## C3: PPM compare value and polarity bit -/

/-- The compare register holding the PPM pulse delay:
    `CCR3` on X10-layout boards, `CCR1` otherwise. -/
def ppmCmpReg : Board → Reg
  | Board.x10 => Reg.CCR3
  | Board.x12 => Reg.CCR1
  | Board.nv14 => Reg.CCR1

/-- The output-polarity (inverted output) bit of the PPM channel. -/
def ppmInvMask : Board → Nat
  | Board.x10 => TIM_CCER_CC3P
  | Board.x12 => TIM_CCER_CC1P
  | Board.nv14 => TIM_CCER_CC1P

/-- What the code actually programs for the inverted bit: the polarity
    input itself, except on NV14 where the test is reversed (the board
    hardware inverts the line). -/
def ppmExpectedInv (b : Board) (pol : Bool) : Bool :=
  if b = Board.nv14 then !pol else pol

/-- C3 (amended): after `extmodulePpmStart` and after the PPM branch of
    `extmoduleSendNextFrame`, the compare register for the pulse delay
    holds exactly `2 * D` ticks; the output-polarity (inverted) bit in
    `CCER` equals the configured polarity input on the X10/X12 register
    layouts, and its negation on the NV14 layout. -/
theorem ppm_compare_and_polarity (cfg : Config) (inp : Inputs) (s : HwState)
    (hp : inp.protocol = Protocol.PPM) (hd : inp.ppmDelay * 2 < 65536) :
    (run s (extmodulePpmStart cfg inp.ppmDelay inp.ppmPolarity)).regs (ppmCmpReg cfg.board)
        = inp.ppmDelay * 2 ∧
    (run s (extmoduleSendNextFrame cfg inp s)).regs (ppmCmpReg cfg.board)
        = inp.ppmDelay * 2 ∧
    (((run s (extmodulePpmStart cfg inp.ppmDelay inp.ppmPolarity)).regs Reg.CCER
        &&& ppmInvMask cfg.board ≠ 0)
      ↔ ppmExpectedInv cfg.board inp.ppmPolarity = true) ∧
    (((run s (extmoduleSendNextFrame cfg inp s)).regs Reg.CCER
        &&& ppmInvMask cfg.board ≠ 0)
      ↔ ppmExpectedInv cfg.board inp.ppmPolarity = true) := by
  have hmod : inp.ppmDelay * 2 % 65536 = inp.ppmDelay * 2 := Nat.mod_eq_of_lt hd
  refine ⟨?_, ?_, ?_, ?_⟩ <;>
    cases hb : cfg.board <;>
      cases hpol : inp.ppmPolarity <;>
        (simp [extmodulePpmStart, extmoduleSendNextFrame, timerStartProlog,
          hp, hb, hpol, run, applyAct, updReg, ppmCmpReg, ppmInvMask,
          ppmExpectedInv, ppmCcerVal, u16, hmod];
         all_goals decide)

/-- C3 witness: X10 layout, delay input 300, polarity input true:
    the compare register holds 600 and the inverted bit is set. -/
theorem ppm_compare_and_polarity_witness :
    (run idleState (extmodulePpmStart testCfg 300 true)).regs (ppmCmpReg Board.x10) = 600 ∧
    ((run idleState (extmodulePpmStart testCfg 300 true)).regs Reg.CCER
      &&& ppmInvMask Board.x10 ≠ 0) := by
  have h := ppm_compare_and_polarity testCfg ppmInputs idleState rfl (by decide)
  exact ⟨h.1, h.2.2.1.mpr rfl⟩

/-- C3 counterexample: on the NV14 register layout the claim fails.
    With polarity input `true`, both `extmodulePpmStart` and the PPM
    branch of `extmoduleSendNextFrame` leave the output-polarity
    (inverted) bit clear — the bit written is the negation of the
    polarity input, not the input itself. -/
theorem ppm_polarity_nv14_counterexample :
    ((run idleState (extmodulePpmStart nv14Cfg 300 true)).regs Reg.CCER
      &&& TIM_CCER_CC1P = 0) ∧
    ((run idleState (extmoduleSendNextFrame nv14Cfg ppmInputs idleState)).regs Reg.CCER
      &&& TIM_CCER_CC1P = 0) := by
  constructor
  · decide
  · decide

/-! ## C5: PPM re-arm safety margin -/

/-- C5: in the PPM branch of `extmoduleSendNextFrame`, the compare value
    programmed into `CCR2` to schedule the frame-boundary re-arm
    interrupt is the final timer period of the frame minus the fixed
    4000-tick (2 ms at 2 ticks/µs) safety margin, hence strictly before
    the frame boundary. -/
theorem ppm_rearm_safety_margin (cfg : Config) (inp : Inputs) (s : HwState)
    (hp : inp.protocol = Protocol.PPM)
    (h1 : 4000 < inp.ppmLast) (h2 : inp.ppmLast < 65536) :
    (run s (extmoduleSendNextFrame cfg inp s)).regs Reg.CCR2
        = inp.ppmLast - 4000 ∧
    inp.ppmLast - 4000 < inp.ppmLast := by
  have hv : ppmCcr2 inp.ppmLast = inp.ppmLast - 4000 := by
    unfold ppmCcr2 u16
    omega
  constructor
  · cases hb : cfg.board <;>
      simp [extmoduleSendNextFrame, hp, hb, run, applyAct, updReg, hv]
  · omega

/-- C5 witness: final period 9000 ticks gives a re-arm compare of 5000,
    strictly inside the frame. -/
theorem ppm_rearm_safety_margin_witness :
    (run idleState (extmoduleSendNextFrame testCfg ppmInputs idleState)).regs Reg.CCR2
        = 5000 ∧ (5000 : Nat) < 9000 := by
  have h := ppm_rearm_safety_margin testCfg ppmInputs idleState rfl
    (by decide) (by decide)
  exact ⟨h.1, h.2⟩

/-! ## C9: timer-DMA completion handler effects -/

/-- C9: the transfer-complete handler is a no-op when the TC flag is not
    set; when it is set and the protocol is PPM it clears the pending
    bit, clears the timer CC2 flag and re-enables the CC2 interrupt,
    touching no other register; for any other protocol it clears only
    the pending bit, leaving every timer register (DIER included)
    unchanged. -/
theorem timerDmaIrq_effect (proto : Protocol) (s : HwState) :
    (s.dmaTCFlag = false →
      run s (EXTMODULE_TIMER_DMA_IRQHandler proto s) = s) ∧
    (s.dmaTCFlag = true → proto = Protocol.PPM →
      (run s (EXTMODULE_TIMER_DMA_IRQHandler proto s)).dmaTCFlag = false ∧
      (run s (EXTMODULE_TIMER_DMA_IRQHandler proto s)).regs Reg.SR
          = s.regs Reg.SR &&& compl32 TIM_SR_CC2IF ∧
      (run s (EXTMODULE_TIMER_DMA_IRQHandler proto s)).regs Reg.DIER
          = s.regs Reg.DIER ||| TIM_DIER_CC2IE ∧
      (∀ r : Reg, r ≠ Reg.SR → r ≠ Reg.DIER →
        (run s (EXTMODULE_TIMER_DMA_IRQHandler proto s)).regs r = s.regs r)) ∧
    (s.dmaTCFlag = true → proto ≠ Protocol.PPM →
      run s (EXTMODULE_TIMER_DMA_IRQHandler proto s)
          = { s with dmaTCFlag := false }) := by
  refine ⟨?_, ?_, ?_⟩
  · intro h
    simp [EXTMODULE_TIMER_DMA_IRQHandler, h, run]
  · intro h hppm
    subst hppm
    refine ⟨?_, ?_, ?_, ?_⟩ <;>
      simp [EXTMODULE_TIMER_DMA_IRQHandler, h, run, applyAct, updReg]
    intro r h1 h2
    simp [updReg, h1, h2]
  · intro h hne
    cases hq : proto <;> try exact absurd hq hne
    all_goals
      simp [EXTMODULE_TIMER_DMA_IRQHandler, h, hq, run, applyAct]

/-- C9 witness: with the TC flag set and protocol DSM2, the handler only
    clears the pending flag; with the flag clear and protocol PPM it is
    a strict no-op. -/
theorem timerDmaIrq_effect_witness :
    run idleState (EXTMODULE_TIMER_DMA_IRQHandler Protocol.PPM idleState)
        = idleState ∧
    run { idleState with dmaTCFlag := true }
        (EXTMODULE_TIMER_DMA_IRQHandler Protocol.DSM2_DSM2
          { idleState with dmaTCFlag := true })
        = { { idleState with dmaTCFlag := true } with dmaTCFlag := false } :=
  ⟨(timerDmaIrq_effect Protocol.PPM idleState).1 rfl,
   (timerDmaIrq_effect Protocol.DSM2_DSM2
      { idleState with dmaTCFlag := true }).2.2 rfl (by decide)⟩

/-! ## Software bit-bang serial path (`extmoduleSendInvertedByte`)

The routine is embedded as a timed event trace against the free-running
2 MHz tick counter `getTmr2MHz`.  The busy-waits are idealised: each
`while ((uint16_t)(getTmr2MHz() - time) < N)` loop ends exactly when the
elapsed count reaches `N`, and pin writes take no ticks.  The `uint16_t`
wrap-around in the comparison is invisible at this granularity because
every measured interval (34 or 35 ticks) is far below 65536. -/

inductive BbEv
  /-- `__disable_irq()` at tick `t` -/
  | irqOff (t : Nat)
  /-- pin driven high (`GPIO_SetBits`) or low (`GPIO_ResetBits`) at `t` -/
  | pin (t : Nat) (high : Bool)
  /-- `__enable_irq()` at tick `t` -/
  | irqOn (t : Nat)
  deriving DecidableEq, Repr

/-- The 8-iteration data-bit loop: at tick `time` drive the pin low when
    the current least-significant bit is 1 (inverted logic) and high
    when it is 0, hold 35 ticks, shift the byte right. -/
def bbDataBits : Nat → Nat → Nat → List BbEv
  | _, _, 0 => []
  | byte, time, n + 1 =>
      BbEv.pin time (byte &&& 1 == 0) :: bbDataBits (byte >>> 1) (time + 35) n

/-- `extmoduleSendInvertedByte(byte)`: disable interrupts, drive the
    start condition high and hold it 34 ticks, send the 8 data bits
    LSB-first inverted at 35 ticks each, drive the stop condition low,
    re-enable interrupts, and only then sit out the final 34-tick
    stop-bit wait. -/
def extmoduleSendInvertedByte (byte : Nat) : List BbEv :=
  BbEv.irqOff 0 :: BbEv.pin 0 true ::
    (bbDataBits byte 34 8 ++
      [BbEv.pin (34 + 35 * 8) false, BbEv.irqOn (34 + 35 * 8)])

/-- The tick at which `extmoduleSendInvertedByte` returns: the final
    stop-bit wait adds 34 ticks after the stop condition. -/
def extmoduleSendInvertedByteRet : Nat := 34 + 35 * 8 + 34

/-- Interrupt-enable state at tick `t`: replay every event stamped at or
    before `t`, in trace order, over the entry state `init`. -/
def irqStateAt (init : Bool) (tr : List BbEv) (t : Nat) : Bool :=
  tr.foldl
    (fun v e =>
      match e with
      | BbEv.irqOff u => if u ≤ t then false else v
      | BbEv.irqOn u => if u ≤ t then true else v
      | BbEv.pin _ _ => v)
    init

/-- Interrupt-enable state when the routine returns. -/
def irqFinal (init : Bool) (tr : List BbEv) : Bool :=
  tr.foldl
    (fun v e =>
      match e with
      | BbEv.irqOff _ => false
      | BbEv.irqOn _ => true
      | BbEv.pin _ _ => v)
    init

/-- C4: the byte is transmitted as a start condition driven high at tick
    0 and held 34 ticks, the 8 bits LSB-first with inverted logic (bit
    value 1 drives the pin low) each held 35 ticks, then the stop
    condition at tick `34 + 35*8 = 314` — one tick short of
    `9 * bit_time` with `bit_time = 35` — after which the routine waits
    a further 34 ticks before returning. -/
theorem sendInvertedByte_frame_format (byte : Nat) :
    extmoduleSendInvertedByte byte =
      [ BbEv.irqOff 0,
        BbEv.pin 0 true,
        BbEv.pin 34 (byte &&& 1 == 0),
        BbEv.pin 69 ((byte >>> 1) &&& 1 == 0),
        BbEv.pin 104 ((byte >>> 2) &&& 1 == 0),
        BbEv.pin 139 ((byte >>> 3) &&& 1 == 0),
        BbEv.pin 174 ((byte >>> 4) &&& 1 == 0),
        BbEv.pin 209 ((byte >>> 5) &&& 1 == 0),
        BbEv.pin 244 ((byte >>> 6) &&& 1 == 0),
        BbEv.pin 279 ((byte >>> 7) &&& 1 == 0),
        BbEv.pin 314 false,
        BbEv.irqOn 314 ] ∧
    314 + 1 = 9 * 35 ∧
    extmoduleSendInvertedByteRet = 314 + 34 := by
  refine ⟨?_, by decide, by decide⟩
  simp only [extmoduleSendInvertedByte, bbDataBits, ← Nat.shiftRight_add]
  norm_num

/-- C8: interrupts are off from before the start condition through all 8
    data bits (every tick strictly before the stop condition at 314),
    and back on from the stop condition onward, so the final 34-tick
    stop-bit wait (ticks 314 to 348) runs with interrupts enabled. -/
theorem sendInvertedByte_irq_window (byte : Nat) (init : Bool) (t : Nat) :
    (t < 34 + 35 * 8 →
      irqStateAt init (extmoduleSendInvertedByte byte) t = false) ∧
    (34 + 35 * 8 ≤ t →
      irqStateAt init (extmoduleSendInvertedByte byte) t = true) ∧
    extmoduleSendInvertedByteRet = 34 + 35 * 8 + 34 := by
  refine ⟨?_, ?_, rfl⟩
  · intro h
    have h314 : ¬ (34 + 35 * 8 ≤ t) := by omega
    simp [irqStateAt, extmoduleSendInvertedByte, bbDataBits, h314]
  · intro h
    simp [irqStateAt, extmoduleSendInvertedByte, bbDataBits, h]

/-- C8 witness: for byte `0b10110010`, interrupts are off at tick 100
    (mid data bits) and on at tick 314 (start of the stop-bit wait). -/
theorem sendInvertedByte_irq_window_witness :
    irqStateAt true (extmoduleSendInvertedByte 0xB2) 100 = false ∧
    irqStateAt false (extmoduleSendInvertedByte 0xB2) 314 = true :=
  ⟨(sendInvertedByte_irq_window 0xB2 true 100).1 (by decide),
   (sendInvertedByte_irq_window 0xB2 false 314).2.1 (by decide)⟩

/-- C10: `extmoduleSendInvertedByte` always returns with interrupts
    enabled, whatever the interrupt-enable state at entry was; the entry
    state is never saved, so the result does not depend on it. -/
theorem sendInvertedByte_exits_irq_enabled (byte : Nat) (init : Bool) :
    irqFinal init (extmoduleSendInvertedByte byte) = true ∧
    irqFinal true (extmoduleSendInvertedByte byte)
      = irqFinal false (extmoduleSendInvertedByte byte) := by
  constructor <;> simp [irqFinal, extmoduleSendInvertedByte, bbDataBits]

/-! ## Receive FIFO and UART receive interrupt (C7) -/

/-- Modelled from the spec: the type `ModuleFifo` is declared in this
    translation unit (`ModuleFifo extmoduleFifo;`) but defined in a
    header outside the sources at hand.  Per spec §3/§4.5 it is a
    bounded ring buffer of received bytes plus a monotonic error
    counter; the retrievable bytes are kept here in FIFO order. -/
structure ModuleFifo where
  capacity : Nat
  bytes : List Nat
  errors : Nat
  deriving DecidableEq, Repr

/-- Modelled from the spec: `ModuleFifo::push` (defined outside the
    sources at hand) appends the byte to the ring buffer; a push on a
    full buffer is dropped silently. -/
def ModuleFifo.push (f : ModuleFifo) (b : Nat) : ModuleFifo :=
  if f.bytes.length < f.capacity then { f with bytes := f.bytes ++ [b] } else f

/-- One iteration of the UART receive interrupt body: the data register
    is read unconditionally (clearing the condition); with a line-error
    flag in `status` only the error counter is incremented and the byte
    is discarded, otherwise the byte is pushed. -/
def usartIrqStep (f : ModuleFifo) (status data : Nat) : ModuleFifo :=
  if status &&& USART_FLAG_ERRORS ≠ 0 then { f with errors := f.errors + 1 }
  else f.push data

/-- `EXTMODULE_USART_IRQHandler()`: drain successive `(SR, DR)` register
    reads while the status shows a received byte or a line error. -/
def EXTMODULE_USART_IRQHandler (reads : List (Nat × Nat)) (f : ModuleFifo) :
    ModuleFifo :=
  match reads with
  | [] => f
  | (status, data) :: rest =>
    if status &&& (USART_FLAG_RXNE ||| USART_FLAG_ERRORS) ≠ 0 then
      EXTMODULE_USART_IRQHandler rest (usartIrqStep f status data)
    else f

/-- C7: on a hardware line error (framing/parity/noise/overrun flag in
    the status word) the receive interrupt increments the dedicated
    error counter and does not push the byte — the retrievable bytes are
    untouched; with no error flag the byte is pushed into the ring
    buffer (appended when not full) and the error counter is
    unchanged. -/
theorem usart_irq_error_vs_push (f : ModuleFifo) (status data : Nat) :
    (status &&& (USART_FLAG_RXNE ||| USART_FLAG_ERRORS) ≠ 0 →
      EXTMODULE_USART_IRQHandler [(status, data)] f = usartIrqStep f status data) ∧
    (status &&& USART_FLAG_ERRORS ≠ 0 →
      usartIrqStep f status data = { f with errors := f.errors + 1 } ∧
      (usartIrqStep f status data).bytes = f.bytes) ∧
    (status &&& USART_FLAG_ERRORS = 0 →
      usartIrqStep f status data = f.push data ∧
      (usartIrqStep f status data).errors = f.errors ∧
      (f.bytes.length < f.capacity →
        (usartIrqStep f status data).bytes = f.bytes ++ [data])) := by
  refine ⟨?_, ?_, ?_⟩
  · intro h
    simp [EXTMODULE_USART_IRQHandler, h]
  · intro h
    simp [usartIrqStep, h]
  · intro h
    have hstep : usartIrqStep f status data = f.push data := by
      simp [usartIrqStep, h]
    refine ⟨hstep, ?_, ?_⟩
    · rw [hstep, ModuleFifo.push]
      split <;> rfl
    · intro hlen
      simp [usartIrqStep, h, ModuleFifo.push, hlen]

/-- C7 witness: an overrun-flagged read bumps the error counter and
    leaves the two retrievable bytes alone; a clean read appends the
    byte with the error counter untouched. -/
theorem usart_irq_error_vs_push_witness :
    (usartIrqStep ⟨8, [1, 2], 0⟩ (USART_FLAG_RXNE ||| USART_FLAG_ORE) 9
        = { capacity := 8, bytes := [1, 2], errors := 1 } ∧
      (usartIrqStep ⟨8, [1, 2], 0⟩ (USART_FLAG_RXNE ||| USART_FLAG_ORE) 9).bytes
        = [1, 2]) ∧
    (usartIrqStep ⟨8, [1, 2], 0⟩ USART_FLAG_RXNE 7).errors = 0 ∧
    (usartIrqStep ⟨8, [1, 2], 0⟩ USART_FLAG_RXNE 7).bytes = [1, 2, 7] :=
  ⟨(usart_irq_error_vs_push ⟨8, [1, 2], 0⟩ (USART_FLAG_RXNE ||| USART_FLAG_ORE) 9).2.1
      (by decide),
   ((usart_irq_error_vs_push ⟨8, [1, 2], 0⟩ USART_FLAG_RXNE 7).2.2 (by decide)).2.1,
   ((usart_irq_error_vs_push ⟨8, [1, 2], 0⟩ USART_FLAG_RXNE 7).2.2 (by decide)).2.2
      (by decide)⟩

attribute [ext] HwState

/-- C6: `extmoduleStop` is safe from any prior hardware state: it leaves
    module power off, both module interrupts masked, the DMA stream
    disabled, the timer stopped with its CC2/DMA interrupt enables
    cleared, and the TX pin a driven push-pull plain output; and it is
    idempotent: a second consecutive call changes nothing further. -/
theorem extmoduleStop_idempotent_safe (s : HwState) :
    (run s extmoduleStop).power = false ∧
    (run s extmoduleStop).dmaIrqEnabled = false ∧
    (run s extmoduleStop).ccIrqEnabled = false ∧
    (run s extmoduleStop).regs Reg.dmaCR &&& DMA_SxCR_EN = 0 ∧
    (run s extmoduleStop).regs Reg.DIER &&& (TIM_DIER_CC2IE ||| TIM_DIER_UDE) = 0 ∧
    (run s extmoduleStop).regs Reg.CR1 &&& TIM_CR1_CEN = 0 ∧
    (run s extmoduleStop).pin = pinOutPP ∧
    run (run s extmoduleStop) extmoduleStop = run s extmoduleStop := by
  refine ⟨rfl, rfl, rfl, ?_, ?_, ?_, rfl, ?_⟩
  · have h : (run s extmoduleStop).regs Reg.dmaCR
        = s.regs Reg.dmaCR &&& compl32 DMA_SxCR_EN := by
      simp [run, extmoduleStop, applyAct, updReg]
    rw [h]
    exact land_land_eq_zero _ _ _ (by decide)
  · have h : (run s extmoduleStop).regs Reg.DIER
        = s.regs Reg.DIER &&& compl32 (TIM_DIER_CC2IE ||| TIM_DIER_UDE) := by
      simp [run, extmoduleStop, applyAct, updReg]
    rw [h]
    exact land_land_eq_zero _ _ _ (by decide)
  · have h : (run s extmoduleStop).regs Reg.CR1
        = s.regs Reg.CR1 &&& compl32 TIM_CR1_CEN := by
      simp [run, extmoduleStop, applyAct, updReg]
    rw [h]
    exact land_land_eq_zero _ _ _ (by decide)
  · ext x
    case regs.h =>
      cases x <;>
        simp [run, extmoduleStop, applyAct, updReg, land_land_self]
    all_goals
      simp [run, extmoduleStop, applyAct, updReg]

end ExtmoduleDriver
